import Mathlib

/-!
Verification of the OracleBot repository against its specification.

The development shallowly embeds the relevant parts of the source:

* `src/proxy.py` — the credential-exchange reverse proxy (`proxy` handler);
* `src/main.py` — event deduplication, the session broker
  (`process_message`'s sandbox acquisition), and the turn executor
  (`run_agent_turn`);
* `src/agent/agent_entrypoint.py` — the agent entrypoint (credential
  setup and `save_session_id`).

HTTP header maps, environment maps and the sessions JSON file are modelled
as association lists over `String`; header keys are taken already
lowercased, as the HTTP layer delivers them to the Python handler, and maps
built by Python dicts carry unique keys.  Python string helpers
(`str.strip`, `str.split`, `str.join`, marker tests) are given structural
implementations over the character list so that every definition evaluates
by kernel reduction.
-/

namespace OracleBot

/-- Lookup of a key in an association list, first match wins.  Models
`dict.get(k)` / `headers.get(k)` on a map with unique keys. -/
def hget : List (String × String) → String → Option String
  | [], _ => none
  | (k', v) :: rest, k => if k' = k then some v else hget rest k

/-- Update of a key in an association list: replaces the value at the first
occurrence of the key, or appends the binding at the end.  Models Python
`d[k] = v` on a dict (an existing key keeps its position; a new key is
inserted last). -/
def setKey : List (String × String) → String → String → List (String × String)
  | [], k, v => [(k, v)]
  | (k', v') :: rest, k, v =>
    if k' = k then (k, v) :: rest else (k', v') :: setKey rest k v

/-- Whitespace characters removed by Python `str.strip()` (ASCII range). -/
def isPyWhitespace (c : Char) : Bool :=
  c = ' ' || c = '\t' || c = '\n' || c = '\r' || c = '\x0b' || c = '\x0c'

/-- Python `s.strip()`: drop leading and trailing whitespace. -/
def pyStrip (s : String) : String :=
  ⟨((s.data.dropWhile isPyWhitespace).reverse.dropWhile isPyWhitespace).reverse⟩

/-- Helper for `splitLines`, walking the character list with an accumulator
holding the current (reversed) field. -/
def splitLinesAux : List Char → List Char → List String
  | [], acc => [⟨acc.reverse⟩]
  | c :: cs, acc =>
    if c = '\n' then ⟨acc.reverse⟩ :: splitLinesAux cs []
    else splitLinesAux cs (c :: acc)

/-- Python `s.split("\n")`: empty fields are kept, and the empty string
splits to `[""]`. -/
def splitLines (s : String) : List String :=
  splitLinesAux s.data []

/-- Python `"\n".join(lines)`. -/
def joinLines : List String → String
  | [] => ""
  | [l] => l
  | l :: rest => l ++ "\n" ++ joinLines rest

/-- Character-list test that `p` is an initial segment of `l`. -/
def hasMarker : List Char → List Char → Bool
  | [], _ => true
  | _ :: _, [] => false
  | p :: ps, c :: cs => p = c && hasMarker ps cs

/-- Diagnostic marker test used on stderr lines: Python
`line.startswith("[LOG]")`. -/
def isLogLine (l : String) : Bool :=
  hasMarker "[LOG]".data l.data

/-! ## Credential-exchange proxy (src/proxy.py, `proxy` handler) -/

/-- Sandbox resource as the proxy observes it: `returncode` is `none` while
the sandbox is still running (Python `sb.returncode is None`). -/
structure Sandbox where
  returncode : Option Int
deriving DecidableEq, Repr

/-- Request as received by the proxy handler. -/
structure InboundRequest where
  method : String
  path : String
  headers : List (String × String)
  body : String
deriving DecidableEq, Repr

/-- Request the proxy issues to the upstream host via `httpx`. -/
structure UpstreamRequest where
  method : String
  url : String
  headers : List (String × String)
  body : String
deriving DecidableEq, Repr

/-- Response the upstream host returns. -/
structure UpstreamResponse where
  status : Nat
  content : String
  contentType : String
deriving DecidableEq, Repr

/-- Outcome of the proxy handler.  `denied` models a raised
`HTTPException(status, detail)`; `passthrough` models the final
`Response(content, status_code, media_type)`; `noCredential` models the
missing-header path, where `Sandbox.from_id(None)` raises an exception the
handler does not catch (no claim concerns this path). -/
inductive ProxyResult where
  | denied (status : Nat) (detail : String)
  | passthrough (status : Nat) (content : String) (mediaType : String)
  | noCredential
deriving DecidableEq, Repr

/-- Fixed upstream host hard-coded in the handler. -/
def FIXED_UPSTREAM : String := "https://api.anthropic.com/"

/-- Keep predicate of the dict comprehension in the handler: drop the
`host` and `content-length` headers (keys lowercased by the HTTP layer). -/
def keepHeader (k : String) : Bool :=
  !(k == "host" || k == "content-length")

/-- Dict comprehension dropping the `host` and `content-length` headers. -/
def stripHopHeaders (hs : List (String × String)) : List (String × String) :=
  hs.filter (fun kv => keepHeader kv.1)

/-- Shallow embedding of the `proxy` request handler.  Parameters:
`resolve` models `modal.Sandbox.from_id` (`none` = `NotFoundError`);
`secret` is the `ANTHROPIC_API_KEY` environment value held by the proxy
process; `upstream` is the upstream host's behaviour.  Returns the result
delivered to the caller together with the list of requests actually sent
upstream.  Note that the handler always calls `client.post` and always
answers with `media_type="application/json"`. -/
def proxy (resolve : String → Option Sandbox) (secret : String)
    (upstream : UpstreamRequest → UpstreamResponse) (req : InboundRequest) :
    ProxyResult × List UpstreamRequest :=
  let headers := stripHopHeaders req.headers
  match hget headers "x-api-key" with
  | none => (.noCredential, [])
  | some sandboxId =>
    match resolve sandboxId with
    | none => (.denied 403 "Invalid sandbox ID", [])
    | some sb =>
      match sb.returncode with
      | some _ => (.denied 403 "Sandbox no longer running", [])
      | none =>
        let fwd : UpstreamRequest :=
          { method := "POST"
            url := FIXED_UPSTREAM ++ req.path
            headers := setKey headers "x-api-key" secret
            body := req.body }
        let resp := upstream fwd
        (.passthrough resp.status resp.content "application/json", [fwd])

/-! ## Turn executor (src/main.py, `run_agent_turn`)

The generator is modelled as the finite list of strings it yields, every
yield being `{"response": s}` for some string `s`.  Inputs are the lines
read from the process's stdout, the process exit code, and the raw stderr
text returned by `process.stderr.read()`. -/

/-- Stdout streaming loop: each line is stripped, and nonempty results are
yielded one at a time as response fragments. -/
def responseFragments (stdoutLines : List String) : List String :=
  (stdoutLines.map pyStrip).filter (fun l => l ≠ "")

/-- Post-exit stderr handling: when stderr is nonempty and the exit code is
nonzero, the lines of the stripped stderr that do not carry the `[LOG]`
marker are aggregated into at most one error fragment. -/
def errorFragments (exitCode : Int) (stderr : String) : List String :=
  if stderr ≠ "" then
    if exitCode ≠ 0 then
      let errorLines :=
        (splitLines (pyStrip stderr)).filter (fun l => !(isLogLine l))
      if errorLines ≠ [] then
        ["*** ERROR ***\n" ++ joinLines errorLines]
      else []
    else []
  else []

/-- Full sequence of fragments yielded by one run of `run_agent_turn`. -/
def runAgentTurn (stdoutLines : List String) (exitCode : Int)
    (stderr : String) : List String :=
  responseFragments stdoutLines ++ errorFragments exitCode stderr

/-! ## Event deduplication (src/main.py, `process_message` lines 179-187) -/

/-- One deduplication step on the shared `_processed_events` set.  Returns
whether processing continues (the agent is invoked) and the new set.  The
code returns early on a duplicate; otherwise it adds the identity and, when
the set's size exceeds 1000, clears the whole set. -/
def dedupStep (s : Finset String) (eventId : String) : Bool × Finset String :=
  if eventId ∈ s then (false, s)
  else
    let added := insert eventId s
    if added.card > 1000 then (true, (∅ : Finset String)) else (true, added)

/-! ## Session broker (src/main.py, `process_message` lines 195-227) -/

/-- Outcome of `modal.Sandbox.from_name`; `notFound` models `NotFoundError`.
Sandboxes are named by an abstract identifier. -/
inductive LookupOutcome where
  | found (sb : Nat)
  | notFound
deriving DecidableEq, Repr

/-- Outcome of `modal.Sandbox.create`; `alreadyExists` models
`AlreadyExistsError` raised when a concurrent caller created the same name
first. -/
inductive CreateOutcome where
  | created (sb : Nat)
  | alreadyExists
deriving DecidableEq, Repr

/-- Platform responses observed by one `process_message` call: the initial
lookup, the create attempt (only reached when the lookup failed), and the
fallback lookup used after `AlreadyExistsError` (which succeeds, since the
name now exists). -/
structure BrokerEnv where
  lookup1 : LookupOutcome
  create : CreateOutcome
  lookup2 : Nat
deriving DecidableEq, Repr

/-- Sandbox-acquisition logic of `process_message`: returns the sandbox and
the `is_new_session` flag. -/
def resolveOrCreate (e : BrokerEnv) : Nat × Bool :=
  match e.lookup1 with
  | .found sb => (sb, false)
  | .notFound =>
    match e.create with
    | .created sb => (sb, true)
    | .alreadyExists => (e.lookup2, false)

/-- Status notification posted after the sandbox is acquired. -/
def statusNotifications (isNew : Bool) : List String :=
  if isNew then ["New sandbox"] else ["Reusing sandbox"]

/-- Boolean test for a successful create, used to state the platform's
create-exclusivity guarantee. -/
def createWon (e : BrokerEnv) : Bool :=
  match e.create with
  | .created _ => true
  | .alreadyExists => false

/-! ## Sandbox creation configuration (src/main.py, `Sandbox.create` call)
and agent credential setup (src/agent/agent_entrypoint.py). -/

/-- Name of the Modal secret holding the real upstream API key; it is
attached to the proxy function only (src/proxy.py line 13). -/
def anthropicSecretName : String := "anthropic-secret"

/-- Mount path of the shared volume (`VOL_MOUNT_PATH`). -/
def VOL_MOUNT_PATH : String := "/workspace"

/-- Names of the secrets injected into a sandbox at creation, depending on
the `DEBUG_TOOL_USE` flag (src/main.py line 206). -/
def sandboxSecrets (debugToolUse : Bool) : List String :=
  if debugToolUse then
    ["slack-bot-secret", "github-deploy-key", "github-token"]
  else
    ["github-deploy-key", "github-token"]

/-- Value of the `DEBUG_TOOL_USE` flag in the source. -/
def DEBUG_TOOL_USE : Bool := true

/-- Environment injected into a sandbox at creation (src/main.py lines
209-212): the Claude config directory on the shared volume, and the
upstream base-URL override pointed at the proxy's web URL. -/
def sandboxEnv (proxyUrl : String) : List (String × String) :=
  [("CLAUDE_CONFIG_DIR", VOL_MOUNT_PATH ++ "/claude-config"),
   ("ANTHROPIC_BASE_URL", proxyUrl)]

/-- First effect of the agent entrypoint's `main`
(src/agent/agent_entrypoint.py line 53): the process environment gets the
sandbox's own identifier as its API credential. -/
def setAgentCredential (env : List (String × String)) (sandboxId : String) :
    List (String × String) :=
  setKey env "ANTHROPIC_API_KEY" sandboxId

/-! ## Session persistence (src/agent/agent_entrypoint.py,
`save_session_id`)

The sessions JSON file is modelled as an association list with unique keys
(a JSON object); `none` models a missing file. -/

/-- Read-modify-write of the sessions file: parse the file if it exists
(else start from the empty mapping), set the entry for this sandbox name,
and write the result back. -/
def saveSessionId (file : Option (List (String × String)))
    (sandboxName sessionId : String) : List (String × String) :=
  let sessions := file.getD []
  setKey sessions sandboxName sessionId

/-! ## Helper lemmas on association lists -/

theorem hget_setKey_self (l : List (String × String)) (k v : String) :
    hget (setKey l k v) k = some v := by
  induction l with
  | nil => simp [setKey, hget]
  | cons kv rest ih =>
    by_cases h : kv.1 = k
    · simp [setKey, h, hget]
    · simp [setKey, h, hget, ih]

theorem hget_setKey_ne (l : List (String × String)) (k v k' : String)
    (hne : k' ≠ k) : hget (setKey l k v) k' = hget l k' := by
  induction l with
  | nil => simp [setKey, hget, Ne.symm hne]
  | cons kv rest ih =>
    by_cases h : kv.1 = k
    · simp [setKey, h, hget, Ne.symm hne]
    · by_cases h3 : kv.1 = k'
      · simp [setKey, h, hget, h3, hne]
      · simp [setKey, h, hget, h3, ih]

theorem hget_filterKeys (p : String → Bool) (hs : List (String × String))
    (k : String) :
    hget (hs.filter fun kv => p kv.1) k = if p k then hget hs k else none := by
  induction hs with
  | nil => cases hp : p k <;> simp [hget, hp]
  | cons kv rest ih =>
    by_cases hk : kv.1 = k
    · cases hp : p k
      · simp [List.filter_cons, hk, hp, ih]
      · simp [List.filter_cons, hk, hp, hget]
    · cases hp2 : p kv.1
      · simp [List.filter_cons, hp2, hget, hk, ih]
      · simp [List.filter_cons, hp2, hget, hk, ih]

theorem hget_stripHopHeaders_hop (hs : List (String × String)) (k : String)
    (hk : k = "host" ∨ k = "content-length") :
    hget (stripHopHeaders hs) k = none := by
  have hkeep : keepHeader k = false := by
    rcases hk with h | h <;> simp [keepHeader, h]
  simp [stripHopHeaders, hget_filterKeys, hkeep]

theorem hget_stripHopHeaders_other (hs : List (String × String)) (k : String)
    (h1 : k ≠ "host") (h2 : k ≠ "content-length") :
    hget (stripHopHeaders hs) k = hget hs k := by
  have hkeep : keepHeader k = true := by
    simp [keepHeader, h1, h2]
  simp [stripHopHeaders, hget_filterKeys, hkeep]

/-! ## Claim C1 -/

/-- C1: every proxied request whose credential header carries a token that
either does not resolve to a sandbox or resolves to a sandbox that has
already terminated is answered with an authorization-denied status (403),
and no request is sent to the upstream host. -/
theorem C1_bad_token_denied_no_upstream
    (resolve : String → Option Sandbox) (secret : String)
    (upstream : UpstreamRequest → UpstreamResponse) (req : InboundRequest)
    (tok : String) (htok : hget req.headers "x-api-key" = some tok)
    (hbad : resolve tok = none
      ∨ ∃ sb, resolve tok = some sb ∧ sb.returncode ≠ none) :
    (∃ d, (proxy resolve secret upstream req).1 = ProxyResult.denied 403 d)
    ∧ (proxy resolve secret upstream req).2 = [] := by
  have hstrip : hget (stripHopHeaders req.headers) "x-api-key" = some tok := by
    rw [hget_stripHopHeaders_other _ _ (by decide) (by decide)]; exact htok
  rcases hbad with hnone | ⟨sb, hsb, hterm⟩
  · exact ⟨⟨"Invalid sandbox ID", by simp [proxy, hstrip, hnone]⟩,
      by simp [proxy, hstrip, hnone]⟩
  · rcases hrc : sb.returncode with _ | c
    · exact absurd hrc hterm
    · exact ⟨⟨"Sandbox no longer running", by simp [proxy, hstrip, hsb, hrc]⟩,
        by simp [proxy, hstrip, hsb, hrc]⟩

/-- Witness for C1 at a concrete request carrying an unknown token. -/
theorem C1_witness :
    (∃ d, (proxy (fun _ => none) "real"
        (fun _ => ⟨200, "ok", "application/json"⟩)
        ⟨"POST", "v1/messages", [("x-api-key", "unknown")], ""⟩).1
      = ProxyResult.denied 403 d)
    ∧ (proxy (fun _ => none) "real"
        (fun _ => ⟨200, "ok", "application/json"⟩)
        ⟨"POST", "v1/messages", [("x-api-key", "unknown")], ""⟩).2 = [] :=
  C1_bad_token_denied_no_upstream _ _ _ _ "unknown" (by decide) (Or.inl rfl)

/-! ## Claim C2 -/

/-- C2: when the credential token resolves to a live sandbox, the request
forwarded upstream carries the real secret in the credential header, the
`host` and `content-length` headers are removed, and every other header and
the body are forwarded unchanged.  The `Nodup` hypothesis records that a
Python dict carries unique keys. -/
theorem C2_live_token_credential_exchange
    (resolve : String → Option Sandbox) (secret : String)
    (upstream : UpstreamRequest → UpstreamResponse) (req : InboundRequest)
    (tok : String) (sb : Sandbox)
    (hnodup : (req.headers.map Prod.fst).Nodup)
    (htok : hget req.headers "x-api-key" = some tok)
    (hsb : resolve tok = some sb) (hlive : sb.returncode = none) :
    ∃ fwd, (proxy resolve secret upstream req).2 = [fwd]
      ∧ hget fwd.headers "x-api-key" = some secret
      ∧ hget fwd.headers "host" = none
      ∧ hget fwd.headers "content-length" = none
      ∧ (∀ k, k ≠ "x-api-key" → k ≠ "host" → k ≠ "content-length" →
            hget fwd.headers k = hget req.headers k)
      ∧ fwd.body = req.body := by
  have hstrip : hget (stripHopHeaders req.headers) "x-api-key" = some tok := by
    rw [hget_stripHopHeaders_other _ _ (by decide) (by decide)]; exact htok
  refine ⟨{ method := "POST", url := FIXED_UPSTREAM ++ req.path,
            headers := setKey (stripHopHeaders req.headers) "x-api-key" secret,
            body := req.body }, ?_, ?_, ?_, ?_, ?_, rfl⟩
  · simp [proxy, hstrip, hsb, hlive]
  · exact hget_setKey_self _ _ _
  · rw [hget_setKey_ne _ _ _ _ (by decide)]
    exact hget_stripHopHeaders_hop _ _ (Or.inl rfl)
  · rw [hget_setKey_ne _ _ _ _ (by decide)]
    exact hget_stripHopHeaders_hop _ _ (Or.inr rfl)
  · intro k hk1 hk2 hk3
    rw [hget_setKey_ne _ _ _ _ hk1, hget_stripHopHeaders_other _ _ hk2 hk3]

/-- Witness for C2 at a concrete live-sandbox request. -/
theorem C2_witness :
    ∃ fwd, (proxy (fun t => if t = "sb-1" then some ⟨none⟩ else none)
        "real-secret" (fun _ => ⟨200, "ok", "application/json"⟩)
        ⟨"POST", "v1/messages",
          [("x-api-key", "sb-1"), ("host", "h"), ("accept", "a")], "B"⟩).2
        = [fwd]
      ∧ hget fwd.headers "x-api-key" = some "real-secret"
      ∧ hget fwd.headers "host" = none
      ∧ hget fwd.headers "content-length" = none
      ∧ (∀ k, k ≠ "x-api-key" → k ≠ "host" → k ≠ "content-length" →
            hget fwd.headers k
              = hget [("x-api-key", "sb-1"), ("host", "h"), ("accept", "a")] k)
      ∧ fwd.body = "B" :=
  C2_live_token_credential_exchange
    (fun t => if t = "sb-1" then some ⟨none⟩ else none) "real-secret"
    (fun _ => ⟨200, "ok", "application/json"⟩)
    ⟨"POST", "v1/messages",
      [("x-api-key", "sb-1"), ("host", "h"), ("accept", "a")], "B"⟩
    "sb-1" ⟨none⟩ (by decide) (by decide) (by decide) rfl

/-! ## Claim C3 -/

/-- C3 counterexample: a live-token request with inbound method `GET`, sent
to an upstream that answers with content type `text/plain`, is forwarded
with method `POST` and answered with media type `application/json` — the
inbound method is not forwarded verbatim and the upstream content type is
not returned unchanged. -/
theorem C3_counterexample :
    ¬ ((proxy (fun t => if t = "sb-1" then some ⟨none⟩ else none) "real"
          (fun _ => ⟨200, "ok", "text/plain"⟩)
          ⟨"GET", "v1/models", [("x-api-key", "sb-1")], ""⟩).2.map
            UpstreamRequest.method = ["GET"]
        ∧ (proxy (fun t => if t = "sb-1" then some ⟨none⟩ else none) "real"
            (fun _ => ⟨200, "ok", "text/plain"⟩)
            ⟨"GET", "v1/models", [("x-api-key", "sb-1")], ""⟩).1
          = ProxyResult.passthrough 200 "ok" "text/plain") := by
  decide

/-- C3 amended: for every proxied request that passes credential
validation, the inbound path is forwarded to the fixed upstream host, the
forwarded request always uses method POST regardless of the inbound
method, and the response returned to the caller carries the upstream's
status code and body with the content type always set to
`application/json`. -/
theorem C3_amended_post_forward_passthrough
    (resolve : String → Option Sandbox) (secret : String)
    (upstream : UpstreamRequest → UpstreamResponse) (req : InboundRequest)
    (tok : String) (sb : Sandbox)
    (hnodup : (req.headers.map Prod.fst).Nodup)
    (htok : hget req.headers "x-api-key" = some tok)
    (hsb : resolve tok = some sb) (hlive : sb.returncode = none) :
    ∃ fwd, (proxy resolve secret upstream req).2 = [fwd]
      ∧ fwd.method = "POST"
      ∧ fwd.url = FIXED_UPSTREAM ++ req.path
      ∧ (proxy resolve secret upstream req).1
          = ProxyResult.passthrough (upstream fwd).status
              (upstream fwd).content "application/json" := by
  have hstrip : hget (stripHopHeaders req.headers) "x-api-key" = some tok := by
    rw [hget_stripHopHeaders_other _ _ (by decide) (by decide)]; exact htok
  refine ⟨{ method := "POST", url := FIXED_UPSTREAM ++ req.path,
            headers := setKey (stripHopHeaders req.headers) "x-api-key" secret,
            body := req.body }, ?_, rfl, rfl, ?_⟩
  · simp [proxy, hstrip, hsb, hlive]
  · simp [proxy, hstrip, hsb, hlive]

/-- Witness for the amended C3 at a concrete live-sandbox request. -/
theorem C3_witness :
    ∃ fwd, (proxy (fun t => if t = "sb-1" then some ⟨none⟩ else none) "real"
        (fun _ => ⟨200, "ok", "text/plain"⟩)
        ⟨"GET", "v1/models", [("x-api-key", "sb-1")], ""⟩).2 = [fwd]
      ∧ fwd.method = "POST"
      ∧ fwd.url = FIXED_UPSTREAM ++ "v1/models"
      ∧ (proxy (fun t => if t = "sb-1" then some ⟨none⟩ else none) "real"
          (fun _ => ⟨200, "ok", "text/plain"⟩)
          ⟨"GET", "v1/models", [("x-api-key", "sb-1")], ""⟩).1
        = ProxyResult.passthrough 200 "ok" "application/json" :=
  C3_amended_post_forward_passthrough
    (fun t => if t = "sb-1" then some ⟨none⟩ else none) "real"
    (fun _ => ⟨200, "ok", "text/plain"⟩)
    ⟨"GET", "v1/models", [("x-api-key", "sb-1")], ""⟩
    "sb-1" ⟨none⟩ (by decide) (by decide) (by decide) rfl

/-! ## Claim C4 -/

/-- C4: the real upstream secret is never placed into a sandbox.  The
secrets attached at sandbox creation (under either value of the debug
flag) do not include the secret holding the real upstream API key; the
injected environment carries the proxy's base URL as the upstream
override and no upstream API key; and the agent process's credential is
set to its own sandbox identifier. -/
theorem C4_secret_never_in_sandbox :
    anthropicSecretName ∉ sandboxSecrets DEBUG_TOOL_USE
    ∧ anthropicSecretName ∉ sandboxSecrets false
    ∧ (∀ proxyUrl : String,
        hget (sandboxEnv proxyUrl) "ANTHROPIC_API_KEY" = none
        ∧ hget (sandboxEnv proxyUrl) "ANTHROPIC_BASE_URL" = some proxyUrl)
    ∧ (∀ (env : List (String × String)) (sandboxId : String),
        hget (setAgentCredential env sandboxId) "ANTHROPIC_API_KEY"
          = some sandboxId) := by
  refine ⟨by decide, by decide, fun proxyUrl => ⟨?_, ?_⟩, fun env sandboxId => ?_⟩
  · simp [sandboxEnv, hget]
  · simp [sandboxEnv, hget]
  · exact hget_setKey_self _ _ _

/-! ## Claim C5 -/

/-- C5: when sandbox creation fails because a concurrent caller already
created the same identity, the broker falls back to lookup, reports the
session as not new, and posts the "reused" status; and under the
platform's create-exclusivity guarantee (at most one caller's create
succeeds), at most one of any set of concurrent calls reports a new
session — hence at most one "new session" notification. -/
theorem C5_concurrent_create_is_not_an_error :
    (∀ e : BrokerEnv, e.lookup1 = LookupOutcome.notFound →
        e.create = CreateOutcome.alreadyExists →
        resolveOrCreate e = (e.lookup2, false)
        ∧ statusNotifications (resolveOrCreate e).2 = ["Reusing sandbox"])
    ∧ (∀ es : List BrokerEnv, es.countP createWon ≤ 1 →
        es.countP (fun e => (resolveOrCreate e).2) ≤ 1) := by
  constructor
  · intro e h1 h2
    refine ⟨?_, ?_⟩ <;> simp [resolveOrCreate, h1, h2, statusNotifications]
  · intro es h
    have key : ∀ e : BrokerEnv, (resolveOrCreate e).2 = true →
        createWon e = true := by
      intro e
      cases hl : e.lookup1 <;> cases hc : e.create <;>
        simp [resolveOrCreate, createWon, hl, hc]
    calc es.countP (fun e => (resolveOrCreate e).2)
        ≤ es.countP createWon := List.countP_mono_left (fun e _ => key e)
      _ ≤ 1 := h

/-- Witness for C5: a caller that loses the create race resolves to the
fallback lookup with `is_new = false`, and in a two-caller scenario where
one create wins, at most one caller reports a new session. -/
theorem C5_witness :
    (resolveOrCreate ⟨LookupOutcome.notFound, CreateOutcome.alreadyExists, 7⟩
        = (7, false)
      ∧ statusNotifications
          (resolveOrCreate
            ⟨LookupOutcome.notFound, CreateOutcome.alreadyExists, 7⟩).2
        = ["Reusing sandbox"])
    ∧ ([⟨LookupOutcome.notFound, CreateOutcome.created 3, 0⟩,
        ⟨LookupOutcome.notFound, CreateOutcome.alreadyExists, 3⟩] :
          List BrokerEnv).countP (fun e => (resolveOrCreate e).2) ≤ 1 :=
  ⟨C5_concurrent_create_is_not_an_error.1
      ⟨LookupOutcome.notFound, CreateOutcome.alreadyExists, 7⟩ rfl rfl,
    C5_concurrent_create_is_not_an_error.2
      [⟨LookupOutcome.notFound, CreateOutcome.created 3, 0⟩,
       ⟨LookupOutcome.notFound, CreateOutcome.alreadyExists, 3⟩]
      (by decide)⟩

/-! ## Claim C6 -/

/-- C6 counterexample: with primary-channel lines `["[LOG] a", "hello",
"[LOG] b"]` and exit code 0, the turn executor does not yield exactly the
single fragment `"hello"` — diagnostic-marked stdout lines are yielded as
response fragments too. -/
theorem C6_counterexample :
    runAgentTurn ["[LOG] a", "hello", "[LOG] b"] 0 "" ≠ ["hello"] := by
  decide

/-- C6 amended: the executor applies no diagnostic-marker filtering on the
primary channel — every stdout line that is nonempty after stripping,
marker-carrying ones included, is emitted as a user-visible response
fragment, so the claim's input yields the three fragments `["[LOG] a",
"hello", "[LOG] b"]`; marker filtering applies to the secondary channel
only. -/
theorem C6_amended_no_stdout_marker_filter :
    runAgentTurn ["[LOG] a", "hello", "[LOG] b"] 0 ""
      = ["[LOG] a", "hello", "[LOG] b"]
    ∧ ∀ (lines : List String) (l : String), l ∈ lines → pyStrip l ≠ "" →
        pyStrip l ∈ responseFragments lines := by
  refine ⟨by decide, ?_⟩
  intro lines l hl hne
  simp only [responseFragments, List.mem_filter, List.mem_map, decide_not]
  exact ⟨⟨l, hl, rfl⟩, by simpa using hne⟩

/-- Witness for the amended C6 at a concrete stdout line. -/
theorem C6_witness : pyStrip "ok" ∈ responseFragments ["ok"] :=
  C6_amended_no_stdout_marker_filter.2 ["ok"] "ok" (by decide) (by decide)

/-! ## Claim C7 -/

/-- C7: on nonzero exit the executor emits at most one error fragment,
aggregating the stderr lines that do not carry the diagnostic marker; it
emits none when the exit code is zero, when stderr is empty, or when every
stderr line carries the marker. -/
theorem C7_single_aggregated_error_fragment (exitCode : Int)
    (stderr : String) :
    (errorFragments exitCode stderr).length ≤ 1
    ∧ (exitCode = 0 → errorFragments exitCode stderr = [])
    ∧ (stderr = "" → errorFragments exitCode stderr = [])
    ∧ ((∀ l ∈ splitLines (pyStrip stderr), isLogLine l = true) →
        errorFragments exitCode stderr = [])
    ∧ (exitCode ≠ 0 → stderr ≠ "" →
        (splitLines (pyStrip stderr)).filter (fun l => !(isLogLine l)) ≠ [] →
        errorFragments exitCode stderr
          = ["*** ERROR ***\n"
              ++ joinLines ((splitLines (pyStrip stderr)).filter
                    (fun l => !(isLogLine l)))]) := by
  refine ⟨?_, ?_, ?_, ?_, ?_⟩
  · unfold errorFragments
    split_ifs <;> simp <;> try (split_ifs <;> simp)
  · intro h0
    simp [errorFragments, h0]
  · intro hs
    simp [errorFragments, hs]
  · intro hall
    have hfilt :
        (splitLines (pyStrip stderr)).filter (fun l => !(isLogLine l))
          = [] := by
      refine List.filter_eq_nil_iff.mpr (fun a ha => ?_)
      simp [hall a ha]
    simp [errorFragments, hfilt]
  · intro hne hse hfne
    simp [errorFragments, hse, hne, hfne]

/-- Witness for C7: exit code 1 with stderr `"[LOG] x\nboom"` yields the
single aggregated error fragment containing `boom` and excluding the
marked line. -/
theorem C7_witness :
    errorFragments 1 "[LOG] x\nboom" = ["*** ERROR ***\nboom"] :=
  ((C7_single_aggregated_error_fragment 1 "[LOG] x\nboom").2.2.2.2
      (by decide) (by decide) (by decide)).trans (by decide)

/-! ## Claim C8 -/

/-- C8: an event identity still present in the deduplication set triggers
no second invocation and leaves the set unchanged; a fresh identity
triggers one invocation; and when the set's size exceeds 1000 after
insertion it is cleared in full, otherwise the identity is simply added. -/
theorem C8_dedup_and_clear_on_capacity (s : Finset String)
    (eventId : String) :
    (eventId ∈ s → dedupStep s eventId = (false, s))
    ∧ (eventId ∉ s → (dedupStep s eventId).1 = true)
    ∧ (eventId ∉ s → (insert eventId s).card > 1000 →
        dedupStep s eventId = (true, (∅ : Finset String)))
    ∧ (eventId ∉ s → (insert eventId s).card ≤ 1000 →
        dedupStep s eventId = (true, insert eventId s)) := by
  refine ⟨fun h => by simp [dedupStep, h], fun h => ?_, fun h hc => ?_,
    fun h hc => ?_⟩
  · unfold dedupStep
    rw [if_neg h]
    dsimp only
    split_ifs <;> rfl
  · unfold dedupStep
    rw [if_neg h]
    dsimp only
    rw [if_pos hc]
  · have hnot : ¬ (insert eventId s).card > 1000 := not_lt.mpr hc
    unfold dedupStep
    rw [if_neg h]
    dsimp only
    rw [if_neg hnot]

/-- Witness for C8: a fresh identity is processed and recorded, and the
same identity is skipped while still present in the set. -/
theorem C8_witness :
    dedupStep (∅ : Finset String) "e1" = (true, {"e1"})
    ∧ dedupStep {"e1"} "e1" = (false, {"e1"}) :=
  ⟨((C8_dedup_and_clear_on_capacity ∅ "e1").2.2.2 (by decide)
      (by decide)).trans (by decide),
    (C8_dedup_and_clear_on_capacity {"e1"} "e1").1 (by decide)⟩

/-! ## Claim C9 -/

/-- C9: `save_session_id` is a read-modify-write of the single sessions
mapping file — the entry for the given session identity is set to the new
continuation token while every other entry present in the file is left
unchanged (an absent file reads as the empty mapping). -/
theorem C9_save_session_frame (file : Option (List (String × String)))
    (sandboxName sessionId : String) :
    hget (saveSessionId file sandboxName sessionId) sandboxName
      = some sessionId
    ∧ ∀ k, k ≠ sandboxName →
        hget (saveSessionId file sandboxName sessionId) k
          = hget (file.getD []) k :=
  ⟨hget_setKey_self _ _ _, fun _ hk => hget_setKey_ne _ _ _ _ hk⟩

/-- Witness for C9 on a concrete two-entry sessions file. -/
theorem C9_witness :
    hget (saveSessionId (some [("other", "t0"), ("me", "t1")]) "me" "t2")
        "me" = some "t2"
    ∧ hget (saveSessionId (some [("other", "t0"), ("me", "t1")]) "me" "t2")
        "other" = some "t0" :=
  ⟨(C9_save_session_frame (some [("other", "t0"), ("me", "t1")])
      "me" "t2").1,
    ((C9_save_session_frame (some [("other", "t0"), ("me", "t1")])
        "me" "t2").2 "other" (by decide)).trans (by decide)⟩

/-! ## Claim C10 -/

/-- C10: every user-visible response fragment yielded from the primary
channel is nonempty and is the whitespace-stripped form of one of the
stdout lines; the empty string is never emitted as a fragment, so lines
that are empty after stripping are dropped. -/
theorem C10_fragments_nonempty (stdoutLines : List String) :
    (∀ f ∈ responseFragments stdoutLines,
        f ≠ "" ∧ f ∈ stdoutLines.map pyStrip)
    ∧ "" ∉ responseFragments stdoutLines := by
  constructor
  · intro f hf
    rw [responseFragments, List.mem_filter] at hf
    exact ⟨by simpa using hf.2, hf.1⟩
  · intro hmem
    rw [responseFragments, List.mem_filter] at hmem
    simpa using hmem.2

/-- Witness for C10: the stripped fragment of a concrete stdout line is
nonempty, and the empty-after-stripping line is dropped. -/
theorem C10_witness :
    ("hi" ≠ "" ∧ "hi" ∈ (["  hi ", " "].map pyStrip))
    ∧ "" ∉ responseFragments ["  hi ", " "] :=
  ⟨(C10_fragments_nonempty ["  hi ", " "]).1 "hi" (by decide),
    (C10_fragments_nonempty ["  hi ", " "]).2⟩

end OracleBot
